import Mathlib

/-!
Shallow embedding of the Hacker News RSS summarization pipeline
(`main.py`): the dedup store, story selection, content extraction,
summarization guard, feed merge/trim, and the orchestrating main loop.
External effects (HTTP responses, the summarization service, file
contents) are passed in as explicit oracle values; every function below
mirrors the control flow of the corresponding Python function.
-/

namespace HNRss

/-- Constant `MAX_STORIES_TO_FETCH = 30` from main.py. -/
def MAX_STORIES_TO_FETCH : Nat := 30

/-- Constant `MAX_FEED_ENTRIES = 50` from main.py. -/
def MAX_FEED_ENTRIES : Nat := 50

/-- Constant `MAX_PROCESSED_IDS = 5000` from main.py. -/
def MAX_PROCESSED_IDS : Nat := 5000

/-- Characters stripped by Python `str.strip()` (ASCII whitespace). -/
def isPySpace (c : Char) : Bool :=
  c = ' ' || c = '\t' || c = '\n' || c = '\r' || c = Char.ofNat 11 || c = Char.ofNat 12

/-- Models Python `s.strip()`: remove leading and trailing whitespace. -/
def pyStrip (s : String) : String :=
  ⟨((s.data.dropWhile isPySpace).reverse.dropWhile isPySpace).reverse⟩

/-- Models Python slicing `s[:n]`: the first `n` characters of `s`. -/
def pyTake (s : String) (n : Nat) : String :=
  ⟨s.data.take n⟩

/-- Boolean test that the first list is an initial segment of the second. -/
def chStarts : List Char → List Char → Bool
  | [], _ => true
  | _ :: _, [] => false
  | a :: as, b :: bs => a == b && chStarts as bs

/-- Boolean test that `needle` occurs contiguously inside the second list. -/
def chSub (needle : List Char) : List Char → Bool
  | [] => needle.isEmpty
  | b :: bs => chStarts needle (b :: bs) || chSub needle bs

/-- Models Python `needle in hay` on strings (substring containment). -/
def pyIn (needle hay : String) : Bool :=
  chSub needle.data hay.data

/-- JSON body returned by the aggregator item endpoint: the fields main.py
reads. `none` in a field means the key is absent from the JSON object. -/
structure StoryJson where
  title : Option String
  url : Option String
deriving DecidableEq

/-- The dict built by `get_story_details` on success. -/
structure StoryRecord where
  id : String
  title : String
  url : String
deriving DecidableEq

/-- A StoryRecord after `details['summary'] = summary` in `main`. -/
structure SummarizedStory where
  id : String
  title : String
  url : String
  summary : String
deriving DecidableEq

/-- Attaching the summary to the details dict (`details['summary'] = summary`). -/
def addSummary (d : StoryRecord) (s : String) : SummarizedStory :=
  { id := d.id, title := d.title, url := d.url, summary := s }

/-- One entry of the RSS document, with the fields `update_rss_feed` sets.
`pubDate` carries the ingestion timestamp passed in by the caller. -/
structure FeedEntry where
  title : String
  link : String
  description : String
  guid : String
  pubDate : Nat
deriving DecidableEq

/-- An HTTP response of the article page as `scrape_article_content` sees it:
the Content-Type header, the `get_text()` of each `<p>` element in document
order, and the visible text of `<body>` (`none` when there is no body tag). -/
structure PageResponse where
  contentType : String
  paragraphs : List String
  body : Option String
deriving DecidableEq

/-- Embeds `get_processed_ids`: read the dedup file and strip each line;
a missing file (`none`) yields the empty collection. Python returns a set;
only membership of the result is ever used, so a list of the stripped lines
is a faithful model. -/
def get_processed_ids (file : Option (List String)) : List String :=
  (file.getD []).map pyStrip

/-- Embeds the body of `prune_processed_ids` acting on the file lines, with
the bound as a parameter: when the line count exceeds `maxIds`, keep
`lines[-maxIds:]`, i.e. drop all but the last `maxIds` lines. -/
def prune_lines (maxIds : Nat) (lines : List String) : List String :=
  if maxIds < lines.length then lines.drop (lines.length - maxIds) else lines

/-- Embeds `prune_processed_ids`: a missing file is left missing; otherwise
the lines are pruned to the last `MAX_PROCESSED_IDS`. -/
def prune_processed_ids (file : Option (List String)) : Option (List String) :=
  match file with
  | none => none
  | some lines => some (prune_lines MAX_PROCESSED_IDS lines)

/-- Embeds `get_top_story_ids`: `fetch` is the decoded `/topstories.json`
response (`none` when the request raised `RequestException`); on success the
ids not in `processed` are kept in order and truncated to
`MAX_STORIES_TO_FETCH`; on failure the empty list is returned. -/
def get_top_story_ids (fetch : Option (List String)) (processed : List String) :
    List String :=
  match fetch with
  | none => []
  | some all_ids =>
    (all_ids.filter (fun i => !(processed.contains i))).take MAX_STORIES_TO_FETCH

/-- Embeds `get_story_details`: outer `none` is a failed request
(`RequestException`), inner `none` is a null/falsy JSON body. A record is
built only when the item has a `url`; a missing `title` falls back to the
placeholder `"无标题"` via `story_data.get("title", "无标题")`. -/
def get_story_details (story_id : String) (resp : Option (Option StoryJson)) :
    Option StoryRecord :=
  match resp with
  | none => none
  | some none => none
  | some (some story_data) =>
    match story_data.url with
    | some u => some { id := story_id, title := story_data.title.getD "无标题", url := u }
    | none => none

/-- The local variable `content` of `scrape_article_content` after the join:
the `get_text()` of every paragraph whose stripped text exceeds 100
characters, concatenated with newline separators. -/
def para_content (page : PageResponse) : String :=
  String.intercalate "\n" (page.paragraphs.filter (fun p => 100 < (pyStrip p).length))

/-- Embeds `scrape_article_content`: `resp = none` covers a failed request or
any exception raised while fetching/parsing (the bare `except Exception`
branch returns `None`). A non-HTML Content-Type returns `None`. Otherwise the
paragraph join is returned; when it is empty the body text is used if a body
tag exists, and the (possibly empty) string is returned. -/
def scrape_article_content (resp : Option PageResponse) : Option String :=
  match resp with
  | none => none
  | some page =>
    if pyIn "text/html" page.contentType = false then none
    else if para_content page = "" then
      match page.body with
      | some bodyText => some bodyText
      | none => some (para_content page)
    else some (para_content page)

/-- The fixed placeholder returned when content is too short to summarize. -/
def TOO_SHORT_MSG : String := "内容过短，无法生成有意义的摘要。"

/-- The fixed placeholder returned when the Gemini call raises. -/
def API_FAIL_MSG : String := "调用AI总结服务失败。"

/-- Literal text of the prompt before the embedded article content. -/
def PROMPT_HEAD : String :=
  "请将以下英文文章内容总结成一段流畅的中文摘要，专注于核心观点和主要信息，字数在150字左右。不要添加任何个人评论或解释，直接给出摘要.\n\n文章内容:\n---\n"

/-- Literal text of the prompt after the embedded article content. -/
def PROMPT_TAIL : String := "\n---\n"

/-- The prompt string built by `summarize_with_gemini`: the f-string embeds
`content[:8000]` between the fixed head and tail. -/
def gemini_prompt (content : String) : String :=
  PROMPT_HEAD ++ pyTake content 8000 ++ PROMPT_TAIL

/-- Embeds `summarize_with_gemini`, instrumented with whether the external
service was invoked. `api` is the external service as a function of the
prompt sent; `none` models `model.generate_content` raising. The guard
`if not content or len(content.strip()) < 200` short-circuits to the
too-short placeholder without any call; an API failure yields the failure
placeholder. -/
def summarize_call (content : String) (api : String → Option String) :
    Bool × String :=
  if content = "" ∨ (pyStrip content).length < 200 then (false, TOO_SHORT_MSG)
  else
    match api (gemini_prompt content) with
    | some text => (true, text)
    | none => (true, API_FAIL_MSG)

/-- The summary string produced by `summarize_with_gemini`. -/
def summarize_with_gemini (content : String) (api : String → Option String) :
    String :=
  (summarize_call content api).2

/-- The FeedEntry built for one story in `update_rss_feed`: link and guid are
the story url (guid as permalink), the description is the summary and the
pubDate is the current time. -/
def mkFeedEntry (story : SummarizedStory) (now : Nat) : FeedEntry :=
  { title := story.title, link := story.url, description := story.summary,
    guid := story.url, pubDate := now }

/-- Embeds the merge loop of `update_rss_feed` (lines 145-151): each story of
the batch is prepended (`add_entry(order='prepend')` inserts at index 0) in
processing order in front of the existing entries, which are newest-first. -/
def merge_entries (existing : List FeedEntry) (new_stories : List SummarizedStory)
    (now : Nat) : List FeedEntry :=
  new_stories.foldl (fun entries story => mkFeedEntry story now :: entries) existing

/-- Embeds the trim step of `update_rss_feed` (lines 153-154): when the entry
list is longer than `MAX_FEED_ENTRIES` it is replaced by
`fg.entry()[MAX_FEED_ENTRIES:]`, the slice that drops the first
`MAX_FEED_ENTRIES` elements. -/
def trim_entries (entries : List FeedEntry) : List FeedEntry :=
  if MAX_FEED_ENTRIES < entries.length then entries.drop MAX_FEED_ENTRIES
  else entries

/-- Embeds `update_rss_feed`: `loaded` is the entry list recovered from the
existing RSS file (`none` when the file is missing or loading raised, in which
case a fresh empty document is used), then the batch is merged and the result
trimmed before persisting. -/
def update_rss_feed (loaded : Option (List FeedEntry))
    (new_stories : List SummarizedStory) (now : Nat) : List FeedEntry :=
  trim_entries (merge_entries (loaded.getD []) new_stories now)

/-- Observable side effects of one run, in program order: a line appended to
the dedup file (`add_processed_id`), the feed published with a batch
(`update_rss_feed` called), and a `prune_processed_ids` call. -/
inductive RunEvent where
  | recordId (id : String)
  | publish (batch : List SummarizedStory)
  | pruneCall
deriving DecidableEq

/-- All external inputs one run can observe, as oracle values/functions:
the dedup file contents, the decoded top-stories response, the item endpoint
response per story id, the article page per url, and the summarization
service per prompt. -/
structure RunEnv where
  processedFile : Option (List String)
  topStories : Option (List String)
  itemResp : String → Option (Option StoryJson)
  pageResp : String → Option PageResponse
  api : String → Option String

/-- Embeds the per-item loop of `main` (lines 176-192): for each story id,
fetch details; on success scrape the url; when content is truthy, summarize,
append the summarized story to the batch and record the id as processed.
Returns the batch in processing order and the record events emitted. -/
def process_items (env : RunEnv) : List String → List SummarizedStory × List RunEvent
  | [] => ([], [])
  | story_id :: rest =>
    match get_story_details story_id (env.itemResp story_id) with
    | none => process_items env rest
    | some details =>
      match scrape_article_content (env.pageResp details.url) with
      | none => process_items env rest
      | some content =>
        if content = "" then process_items env rest
        else
          (addSummary details (summarize_with_gemini content env.api)
             :: (process_items env rest).1,
           RunEvent.recordId details.id :: (process_items env rest).2)

/-- Embeds `main` as the sequence of observable events of one completed run:
load the dedup set, select candidates; an empty selection goes straight to
pruning; otherwise the items are processed, the feed is published only when
the batch is non-empty, and pruning always runs last. -/
def main_run (env : RunEnv) : List RunEvent :=
  let processed := get_processed_ids env.processedFile
  let story_ids := get_top_story_ids env.topStories processed
  if story_ids = [] then [RunEvent.pruneCall]
  else
    let result := process_items env story_ids
    result.2 ++ (if result.1 = [] then [] else [RunEvent.publish result.1])
      ++ [RunEvent.pruneCall]

/-- Recognizes a prune invocation in the event trace. -/
def isPruneEvent : RunEvent → Bool
  | RunEvent.pruneCall => true
  | _ => false

/-- A concrete feed entry used for concrete evaluations. -/
def dummyEntry (n : Nat) : FeedEntry :=
  { title := toString n, link := "", description := "", guid := "", pubDate := n }

/-- A concrete summarized story used for concrete evaluations. -/
def dummyStory : SummarizedStory :=
  { id := "1", title := "t", url := "u", summary := "s" }

/-- A concrete 250-character article text, long enough to pass the guard. -/
def longContent : String :=
  ⟨List.replicate 250 'a'⟩

/-- A concrete HTML page whose single paragraph passes the 100-character
filter. -/
def pageLong : PageResponse :=
  { contentType := "text/html", paragraphs := [longContent], body := none }

/-- A concrete run environment: one candidate whose metadata and page fetches
succeed and whose summarization call fails. -/
def env0 : RunEnv :=
  { processedFile := none,
    topStories := some ["1"],
    itemResp := fun _ => some (some { title := some "T", url := some "u" }),
    pageResp := fun _ => some pageLong,
    api := fun _ => none }

set_option maxRecDepth 10000

/-- Claim C1 fails on the code: on a merged document of 51 entries
(newest-first `dummyEntry 0 .. dummyEntry 50`), the trim step keeps
`entries[MAX_FEED_ENTRIES:]` — the single oldest tail entry — rather than the
first `MAX_FEED_ENTRIES` newest-first entries the claim describes. -/
theorem trim_drops_head_not_tail :
    trim_entries ((List.range 51).map dummyEntry) =
      ((List.range 51).map dummyEntry).drop MAX_FEED_ENTRIES ∧
    trim_entries ((List.range 51).map dummyEntry) = [dummyEntry 50] ∧
    ((List.range 51).map dummyEntry).take MAX_FEED_ENTRIES ≠ [dummyEntry 50] := by
  refine ⟨rfl, by decide, by decide⟩

/-- Claim C2 fails on the code: merging a batch of one story into a prior
document of 100 entries leaves 51 persisted entries, exceeding
`MAX_FEED_ENTRIES = 50`, because the trim step drops exactly the first 50
entries instead of capping the length at 50. -/
theorem feed_cap_invariant_violated :
    (update_rss_feed (some ((List.range 100).map dummyEntry)) [dummyStory] 0).length
      = 51 ∧
    MAX_FEED_ENTRIES <
      (update_rss_feed (some ((List.range 100).map dummyEntry)) [dummyStory] 0).length := by
  constructor <;> decide

/-- Claim C3: merging a batch processed in order `[a, b, c]` prepends each
item in processing order, so the resulting entry list starts with the entries
of `c`, `b`, `a` followed by the previously existing entries unchanged. -/
theorem merge_prepends_batch_newest_first (existing : List FeedEntry)
    (a b c : SummarizedStory) (now : Nat) :
    merge_entries existing [a, b, c] now =
      mkFeedEntry c now :: mkFeedEntry b now :: mkFeedEntry a now :: existing := rfl

/-- Claim C4: when the log exceeds the bound, pruning keeps exactly the last
`maxIds` lines as a suffix of the original log (original append order); a log
within the bound is unchanged, a missing log stays missing, and with bound 2
the log `[x, y, z]` becomes `[y, z]`. -/
theorem prune_keeps_last_lines (maxIds : Nat) (lines : List String) :
    (maxIds < lines.length →
      prune_lines maxIds lines = lines.drop (lines.length - maxIds) ∧
      (prune_lines maxIds lines).length = maxIds ∧
      lines.take (lines.length - maxIds) ++ prune_lines maxIds lines = lines) ∧
    (lines.length ≤ maxIds → prune_lines maxIds lines = lines) ∧
    prune_processed_ids (some lines) = some (prune_lines MAX_PROCESSED_IDS lines) ∧
    prune_processed_ids none = none ∧
    prune_lines 2 ["x", "y", "z"] = ["y", "z"] := by
  refine ⟨fun h => ?_, fun h => ?_, rfl, rfl, by decide⟩
  · have e : prune_lines maxIds lines = lines.drop (lines.length - maxIds) := by
      simp only [prune_lines, if_pos h]
    refine ⟨e, ?_, ?_⟩
    · rw [e, List.length_drop]
      omega
    · rw [e]
      exact List.take_append_drop _ _
  · simp only [prune_lines, if_neg (by omega : ¬ maxIds < lines.length)]

/-- Witness for C4: pruning a 3-line log with bound 2 keeps the last two
lines, and a 3-line log is unchanged under bound 5. -/
theorem prune_keeps_last_lines_witness :
    prune_lines 2 ["x", "y", "z"] = (["x", "y", "z"] : List String).drop 1 ∧
    (prune_lines 2 ["x", "y", "z"]).length = 2 ∧
    prune_lines 5 ["x", "y", "z"] = ["x", "y", "z"] := by
  have h2 := (prune_keeps_last_lines 2 ["x", "y", "z"]).1 (by decide)
  have h5 := (prune_keeps_last_lines 5 ["x", "y", "z"]).2.1 (by decide)
  exact ⟨h2.1, h2.2.1, h5⟩

/-- Claim C5: a candidate whose metadata fetch fails, or whose content
extraction yields no text, contributes nothing to the batch and no
record event (it is not marked processed); a candidate whose metadata and
extraction succeed but whose summarization call fails is still recorded and
enters the batch with the fixed failure placeholder summary. -/
theorem per_item_failure_isolation (env : RunEnv) (story_id : String)
    (rest : List String) :
    (env.itemResp story_id = none →
      process_items env (story_id :: rest) = process_items env rest) ∧
    (∀ d, get_story_details story_id (env.itemResp story_id) = some d →
      (scrape_article_content (env.pageResp d.url) = none ∨
       scrape_article_content (env.pageResp d.url) = some "") →
      process_items env (story_id :: rest) = process_items env rest) ∧
    (∀ d c, get_story_details story_id (env.itemResp story_id) = some d →
      scrape_article_content (env.pageResp d.url) = some c →
      c ≠ "" → 200 ≤ (pyStrip c).length →
      env.api (gemini_prompt c) = none →
      process_items env (story_id :: rest) =
        (addSummary d API_FAIL_MSG :: (process_items env rest).1,
         RunEvent.recordId d.id :: (process_items env rest).2)) := by
  refine ⟨fun h => ?_, fun d hd hs => ?_, fun d c hd hc hne hlen hapi => ?_⟩
  · simp only [process_items, h]
    rfl
  · rcases hs with hs | hs
    · simp only [process_items, hd, hs]
    · simp only [process_items, hd, hs]
      rfl
  · have hguard : ¬(c = "" ∨ (pyStrip c).length < 200) := by
      rintro (h1 | h2)
      · exact hne h1
      · omega
    have hsum : summarize_with_gemini c env.api = API_FAIL_MSG := by
      simp only [summarize_with_gemini, summarize_call, if_neg hguard, hapi]
    simp only [process_items, hd, hc, if_neg hne, hsum]

/-- Witness for C5: in `env0` the single candidate's metadata and page
fetches succeed, the Gemini call fails, and the item is published with the
failure placeholder and recorded. -/
theorem per_item_failure_isolation_witness :
    process_items env0 ["1"] =
      ([addSummary { id := "1", title := "T", url := "u" } API_FAIL_MSG],
       [RunEvent.recordId "1"]) := by
  have h := (per_item_failure_isolation env0 "1" []).2.2
    { id := "1", title := "T", url := "u" } longContent
    (by decide) (by decide) (by decide) (by decide) rfl
  exact h

/-- Claim C6: candidate selection returns the empty sequence when the
top-stories request fails; on success it returns the filter of the
aggregator's list by non-membership in the exclude set, truncated to
`MAX_STORIES_TO_FETCH`, which is a rank-order-preserving subsequence of the
aggregator's list, has length at most `MAX_STORIES_TO_FETCH`, and contains no
excluded id. -/
theorem get_top_story_ids_spec (processed ids : List String) :
    get_top_story_ids none processed = [] ∧
    get_top_story_ids (some ids) processed =
      (ids.filter (fun i => !(processed.contains i))).take MAX_STORIES_TO_FETCH ∧
    (get_top_story_ids (some ids) processed).Sublist ids ∧
    (get_top_story_ids (some ids) processed).length ≤ MAX_STORIES_TO_FETCH ∧
    ∀ x ∈ get_top_story_ids (some ids) processed, processed.contains x = false := by
  refine ⟨rfl, rfl, ?_, ?_, ?_⟩
  · exact (List.take_sublist _ _).trans (List.filter_sublist _)
  · show ((ids.filter _).take MAX_STORIES_TO_FETCH).length ≤ MAX_STORIES_TO_FETCH
    rw [List.length_take]
    exact min_le_left _ _
  · intro x hx
    have hx' : x ∈ ids.filter (fun i => !(processed.contains i)) :=
      (List.take_sublist _ _).subset hx
    have := (List.mem_filter.mp hx').2
    simpa using this

/-- Witness for C6: a failed fetch yields no candidates, and the survivor of
`["1", "2"]` with exclude set `["2"]` is not excluded. -/
theorem get_top_story_ids_spec_witness :
    get_top_story_ids none ["2"] = [] ∧
    (["2"] : List String).contains "1" = false := by
  have h := get_top_story_ids_spec ["2"] ["1", "2"]
  exact ⟨h.1, h.2.2.2.2 "1" (by decide)⟩

/-- Claim C7: when the content is empty or its stripped length is under 200
the external service is not invoked and the fixed too-short placeholder is
returned; otherwise the service is invoked and the prompt embeds exactly the
first 8000 characters of the content (a prefix of the content of length at
most 8000) between the fixed head and tail. -/
theorem summarize_guard_and_truncation (content : String)
    (api : String → Option String) :
    (content = "" ∨ (pyStrip content).length < 200 →
      summarize_call content api = (false, TOO_SHORT_MSG)) ∧
    (¬(content = "" ∨ (pyStrip content).length < 200) →
      (summarize_call content api).1 = true ∧
      gemini_prompt content = PROMPT_HEAD ++ pyTake content 8000 ++ PROMPT_TAIL ∧
      (pyTake content 8000).length ≤ 8000 ∧
      (pyTake content 8000).data ++ content.data.drop 8000 = content.data) := by
  constructor
  · intro h
    simp only [summarize_call, if_pos h]
  · intro h
    refine ⟨?_, rfl, ?_, ?_⟩
    · simp only [summarize_call, if_neg h]
      cases api (gemini_prompt content) <;> rfl
    · show (content.data.take 8000).length ≤ 8000
      rw [List.length_take]
      exact min_le_left _ _
    · exact List.take_append_drop _ _

/-- Witness for C7: a short text returns the too-short placeholder without
invoking the service, and the 250-character text does invoke it. -/
theorem summarize_guard_and_truncation_witness :
    summarize_call "hi" (fun _ => none) = (false, TOO_SHORT_MSG) ∧
    (summarize_call longContent (fun _ => none)).1 = true := by
  refine ⟨(summarize_guard_and_truncation "hi" (fun _ => none)).1 (Or.inr (by decide)),
    ((summarize_guard_and_truncation longContent (fun _ => none)).2 (by decide)).1⟩

/-- Claim C8 counterexample: on an HTML page with no qualifying paragraphs
and no body tag, `scrape_article_content` returns the empty string
`some ""`, not the absent value `none` the claim states. -/
theorem scrape_no_body_returns_empty_string :
    scrape_article_content
        (some { contentType := "text/html", paragraphs := [], body := none }) =
      some "" ∧
    (some "" : Option String) ≠ (none : Option String) := by
  constructor
  · decide
  · decide

/-- Claim C8 as amended: extraction returns absent (`none`) on any raised
step or failed request and on a non-HTML content type; on an HTML page it
returns the paragraph join when non-empty, falls back to the body text when
the join is empty and a body exists, and returns the empty string — treated
as absent by the caller — when the join is empty and there is no body. -/
theorem scrape_never_raises_and_falls_back (page : PageResponse) :
    scrape_article_content none = none ∧
    (pyIn "text/html" page.contentType = false →
      scrape_article_content (some page) = none) ∧
    (pyIn "text/html" page.contentType = true →
      (para_content page ≠ "" →
        scrape_article_content (some page) = some (para_content page)) ∧
      (para_content page = "" → ∀ b, page.body = some b →
        scrape_article_content (some page) = some b) ∧
      (para_content page = "" → page.body = none →
        scrape_article_content (some page) = some "")) := by
  have split3 : ∀ hhtml : pyIn "text/html" page.contentType = true,
      ¬(pyIn "text/html" page.contentType = false) := by
    intro hhtml
    rw [hhtml]
    decide
  refine ⟨rfl, fun h => ?_,
    fun hhtml => ⟨fun hne => ?_, fun he b hb => ?_, fun he hb => ?_⟩⟩
  · simp only [scrape_article_content, if_pos h]
  · simp only [scrape_article_content, if_neg (split3 hhtml), if_neg hne]
  · simp only [scrape_article_content, if_neg (split3 hhtml), if_pos he, hb]
  · simp only [scrape_article_content, if_neg (split3 hhtml), if_pos he, hb, he]
    exact if_pos trivial

/-- Witness for C8 (amended): a non-HTML response yields absent, and an HTML
page with no qualifying paragraphs falls back to the body text. -/
theorem scrape_never_raises_witness :
    scrape_article_content
        (some { contentType := "text/plain", paragraphs := [], body := none }) =
      none ∧
    scrape_article_content
        (some { contentType := "text/html", paragraphs := [], body := some "B" }) =
      some "B" := by
  constructor
  · exact (scrape_never_raises_and_falls_back
      { contentType := "text/plain", paragraphs := [], body := none }).2.1 (by decide)
  · exact ((scrape_never_raises_and_falls_back
      { contentType := "text/html", paragraphs := [], body := some "B" }).2.2
        (by decide)).2.1 (by decide) "B" rfl

/-- The per-item loop never emits a prune event. -/
theorem process_items_no_prune (env : RunEnv) (ids : List String) :
    (process_items env ids).2.filter isPruneEvent = [] := by
  induction ids with
  | nil => rfl
  | cons story_id rest ih =>
    rcases hd : get_story_details story_id (env.itemResp story_id) with _ | details
    · simpa [process_items, hd] using ih
    · rcases hc : scrape_article_content (env.pageResp details.url) with _ | content
      · simpa [process_items, hd, hc] using ih
      · by_cases hcc : content = ""
        · simpa [process_items, hd, hc, hcc] using ih
        · simpa [process_items, hd, hc, hcc, isPruneEvent] using ih

/-- Claim C9: every completed run emits exactly one prune invocation, both on
the empty-selection early path and on the full path, whether or not any item
was published. -/
theorem main_run_prunes_exactly_once (env : RunEnv) :
    ((main_run env).filter isPruneEvent).length = 1 := by
  simp only [main_run]
  split
  · rfl
  · rw [List.filter_append, List.filter_append, process_items_no_prune]
    split <;> rfl

/-- Claim C10: an item response that has a `url` but no `title` still yields
a StoryRecord, with the title defaulted to the placeholder `"无标题"`. -/
theorem missing_title_gets_placeholder (story_id u : String) :
    get_story_details story_id (some (some { title := none, url := some u })) =
      some { id := story_id, title := "无标题", url := u } := rfl

end HNRss
